import Mathlib

/-!
Shallow embedding of the task-lifecycle and priority-scoring core of the
Task-manager repository.

The repository stores several revisions of the task controller concatenated in
`backend/seed.js`; the namespaces below mirror the revisions the claims cite:

* `V1` — the controller at seed.js lines 85-738 (department-aware revision):
  `updateTask` (280-322), `deleteTask` (327-358), `updateTaskStatus` (363-432),
  `updateTaskOrder` (477-502), `submitTaskSolution` (507-572),
  `acceptSubmission` (614-665), `rejectSubmission` (670-738).
* `V2` — the controller at seed.js lines 739-1201 (AI-priority revision):
  `createTask` (863-923), `updateTask` (928-971), `recalculatePriority`
  (1086-1131).

The rule-based scorer is `calculateRuleBasedPriority` from
`backend/services/notification.service.js` (lines 233-302); the same
`calculateAIPriority` entry point is re-exported there.  The persisted `Task`
schema is the mongoose schema concatenated at the end of
`backend/models/Department.model.js` (lines 62-238), whose `pre('save')` hook
is embedded as `saveStatusHook`.

Dates are epoch milliseconds (`Int`); document ids are `Nat`; absent
optional fields are `none` (or `""` for schema-default empty strings);
HTTP failure responses are `ApiErr` values carrying the status code and
message the controller sends.
-/

namespace TaskManager

/-- An error response: the HTTP status code (400 validation, 403 forbidden,
404 not found, 500 for a mongoose validation failure surfaced by the catch
block) and the human-readable message the controller sends. -/
structure ApiErr where
  code : Nat
  msg : String
deriving DecidableEq, Repr

/-- The authenticated principal (`req.user`): document id and role string
(one of "SUPER_ADMIN", "MANAGER", "TEAM_MEMBER"). -/
structure Principal where
  id : Nat
  role : String
deriving DecidableEq, Repr

/-- An entry of `submittedFiles` (`{name, url}`; the upload timestamp is not
read by any of the embedded operations). -/
structure SubFile where
  name : String
  url : String
deriving DecidableEq, Repr

/-- A `revisionHistory` entry, as pushed by `submitTaskSolution` and
`rejectSubmission`: snapshot of the previous submission plus review data. -/
structure Revision where
  submittedCode : String
  submittedFiles : List SubFile
  submissionDate : Option Int
  status : String
  feedback : String
  reviewedAt : Int
deriving DecidableEq, Repr

/-- The persisted task document (mongoose `taskSchema`).  Field defaults are
the schema defaults.  `deadline`, `completedAt`, `submissionDate` are epoch
milliseconds; `user`, `assignedBy`, `assignedTo` are user ids. -/
structure Task where
  id : Nat
  title : String
  description : String := ""
  status : String := "To-Do"
  priority : String := "Medium"
  aiPriorityScore : Int := 50
  deadline : Option Int := none
  category : String := "Other"
  tags : List String := []
  estimatedTime : Option Int := none
  user : Nat
  assignedBy : Nat
  assignedTo : Nat
  completedAt : Option Int := none
  completedBeforeDeadline : Option Bool := none
  isArchived : Bool := false
  submittedCode : String := ""
  submittedFiles : List SubFile := []
  submissionStatus : String := "Not Submitted"
  submissionDate : Option Int := none
  managerFeedback : String := ""
  revisionHistory : List Revision := []
deriving DecidableEq, Repr, Inhabited

/-- The `status` enum of the task schema. -/
def statusEnum : List String := ["To-Do", "In-Progress", "Done", "Overdue"]

/-- The `priority` enum of the task schema. -/
def priorityEnum : List String := ["High", "Medium", "Low"]

/-- The `category` enum of the task schema. -/
def categoryEnum : List String := ["Work", "Personal", "Urgent", "Important", "Other"]

/-- Milliseconds per day, the divisor `1000 * 60 * 60 * 24` of the scorer. -/
def msPerDay : Int := 86400000

/-- Mathematical ceiling division for a positive divisor, matching
JavaScript `Math.ceil(a / b)` on exact integer inputs (JavaScript yields
`-0` for small negative quotients, which compares equal to `0`, so the
mathematical ceiling is the faithful model). -/
def ceilDiv (a b : Int) : Int := -((-a).fdiv b)

/-- The scoring-relevant attributes handed to the scorer (`taskData`):
either a request body, a stored task, or the merged view of both. -/
structure ScoreData where
  deadline : Option Int
  category : String
  estimatedTime : Option Int
  tags : List String
  priority : String
deriving DecidableEq, Repr

/-- Deadline-urgency contribution of `calculateRuleBasedPriority`
(notification.service.js lines 236-258): `daysUntilDeadline` is the ceiling
of `(deadline - now) / 86400000`; overdue (`< 0`) +40, due within a day +35,
within 3 days +25, within 7 +15, within 14 +5, else (or no deadline) 0. -/
def deadlineScore (deadline : Option Int) (now : Int) : Int :=
  match deadline with
  | none => 0
  | some dl =>
    let daysUntilDeadline := ceilDiv (dl - now) msPerDay
    if daysUntilDeadline < 0 then 40
    else if daysUntilDeadline ≤ 1 then 35
    else if daysUntilDeadline ≤ 3 then 25
    else if daysUntilDeadline ≤ 7 then 15
    else if daysUntilDeadline ≤ 14 then 5
    else 0

/-- Category contribution of the scorer (`categoryScores[...] || 0`). -/
def categoryScore (category : String) : Int :=
  if category = "Urgent" then 20
  else if category = "Important" then 15
  else if category = "Work" then 10
  else if category = "Personal" then 5
  else 0

/-- Estimated-time contribution of the scorer; a missing or zero
`estimatedTime` is falsy in the source and contributes 0. -/
def estimatedTimeScore (estimatedTime : Option Int) : Int :=
  match estimatedTime with
  | none => 0
  | some t =>
    if t = 0 then 0
    else if t ≤ 30 then 15
    else if t ≤ 60 then 10
    else if t ≤ 120 then 5
    else 0

/-- The urgent-tag list of the scorer. -/
def urgentTags : List String := ["urgent", "important", "critical", "asap", "high-priority"]

/-- JavaScript `.toLowerCase()`, embedded over the underlying character
list so that it computes by kernel reduction. -/
def strToLower (s : String) : String :=
  ⟨s.data.map Char.toLower⟩

/-- Tag contribution: a flat +10 if any tag lower-cases to an urgent tag. -/
def tagScore (tags : List String) : Int :=
  if tags.any (fun tag => urgentTags.contains (strToLower tag)) then 10 else 0

/-- Manual priority-hint contribution: High +15, Medium +5, else 0. -/
def priorityBoost (priority : String) : Int :=
  if priority = "High" then 15
  else if priority = "Medium" then 5
  else 0

/-- `calculateRuleBasedPriority` (notification.service.js lines 233-302):
base 50 plus the five contributions, clamped to [0, 100] (`Math.round` is the
identity on these integer sums). -/
def calculateRuleBasedPriority (d : ScoreData) (now : Int) : Int :=
  max 0 (min 100 (50 + deadlineScore d.deadline now + categoryScore d.category
    + estimatedTimeScore d.estimatedTime + tagScore d.tags + priorityBoost d.priority))

/-- `calculateAIPriority`: with no OpenAI key configured (and on any OpenAI
failure) the source always takes the deterministic rule-based branch, which
is the path the specification covers; the optional external scoring backend
is out of scope. -/
def calculateAIPriority (d : ScoreData) (now : Int) : Int :=
  calculateRuleBasedPriority d now

/-- Scoring view of a stored task (the fields `calculateRuleBasedPriority`
reads from `taskData`). -/
def Task.toScoreData (t : Task) : ScoreData :=
  ⟨t.deadline, t.category, t.estimatedTime, t.tags, t.priority⟩

/-- The `pre('save')` hook of the task schema: when `status` was modified,
a transition to Done with no completion time stamps `completedAt := now`,
and any save with a non-Done status clears `completedAt`. -/
def saveStatusHook (oldStatus : String) (now : Int) (t : Task) : Task :=
  if t.status ≠ oldStatus then
    if t.status = "Done" ∧ t.completedAt = none then { t with completedAt := some now }
    else if t.status ≠ "Done" then { t with completedAt := none }
    else t
  else t

/-- A full-update request body (`req.body` of `PUT /api/tasks/:id`): every
field is optional; `none` means the field is absent from the patch. -/
structure Patch where
  title : Option String := none
  description : Option String := none
  status : Option String := none
  priority : Option String := none
  deadline : Option Int := none
  category : Option String := none
  estimatedTime : Option Int := none
  tags : Option (List String) := none
  aiPriorityScore : Option Int := none
deriving DecidableEq, Repr

/-- JavaScript truthiness of an optional string field (`""` is falsy). -/
def truthyStr : Option String → Bool
  | some s => s != ""
  | none => false

/-- JavaScript truthiness of an optional date field (every date value is
truthy; absent is falsy). -/
def truthyDate : Option Int → Bool
  | some _ => true
  | none => false

/-- JavaScript truthiness of an optional numeric field (`0` is falsy). -/
def truthyNum : Option Int → Bool
  | some n => n != 0
  | none => false

/-- The recompute condition of `V2.updateTask`
(`req.body.deadline || req.body.category || req.body.estimatedTime`). -/
def recomputeCond (p : Patch) : Bool :=
  truthyDate p.deadline || truthyStr p.category || truthyNum p.estimatedTime

/-- Merging a patch into a stored task: a present patch field overwrites the
stored one (both the `{...task.toObject(), ...req.body}` merge used for
re-scoring and the `findByIdAndUpdate` persist). -/
def applyPatch (p : Patch) (t : Task) : Task :=
  { t with
    title := p.title.getD t.title,
    description := p.description.getD t.description,
    status := p.status.getD t.status,
    priority := p.priority.getD t.priority,
    deadline := match p.deadline with | some d => some d | none => t.deadline,
    category := p.category.getD t.category,
    estimatedTime := match p.estimatedTime with | some n => some n | none => t.estimatedTime,
    tags := p.tags.getD t.tags,
    aiPriorityScore := p.aiPriorityScore.getD t.aiPriorityScore }

/-- Mongoose validation of the updated paths of a patch
(`runValidators: true`): enum fields must hit the schema enums and
`estimatedTime` respects `min: 0`. -/
def patchValid (p : Patch) : Bool :=
  (match p.status with | some s => statusEnum.contains s | none => true) &&
  (match p.priority with | some s => priorityEnum.contains s | none => true) &&
  (match p.category with | some c => categoryEnum.contains c | none => true) &&
  (match p.estimatedTime with | some n => decide (0 ≤ n) | none => true)

/-- A task-creation request body (`req.body` of `POST /api/tasks`), reduced
to the fields the controller and the scorer read; `priority := ""` and
`category := "Other"` encode absent fields. -/
structure TaskInput where
  title : String
  assignedTo : Option Nat
  description : String := ""
  deadline : Option Int := none
  category : String := "Other"
  tags : List String := []
  estimatedTime : Option Int := none
  priority : String := ""
deriving DecidableEq, Repr

/-- Scoring view of a creation request body. -/
def TaskInput.toScoreData (i : TaskInput) : ScoreData :=
  ⟨i.deadline, i.category, i.estimatedTime, i.tags, i.priority⟩

/-- JavaScript `.trim()` (strip leading and trailing whitespace), embedded
over the underlying character list so that it computes by kernel
reduction. -/
def strTrim (s : String) : String :=
  ⟨((s.data.dropWhile Char.isWhitespace).reverse.dropWhile Char.isWhitespace).reverse⟩

namespace V1

/-- `exports.updateTask` of the department-aware controller (seed.js lines
280-322): a super admin or the manager who created the task may apply an
arbitrary patch (`findByIdAndUpdate` with `runValidators: true`); everyone
else gets 403.  This revision performs no score recomputation. -/
def updateTask (u : Principal) (p : Patch) (task : Task) : Except ApiErr Task :=
  if ¬(u.role = "SUPER_ADMIN") ∧ ¬(u.role = "MANAGER" ∧ task.assignedBy = u.id) then
    Except.error ⟨403, "Only the manager who created this task can update it"⟩
  else if patchValid p then Except.ok (applyPatch p task)
  else Except.error ⟨500, "Task validation failed"⟩

/-- `exports.deleteTask` (seed.js lines 327-358), over the record store:
404 when the id does not resolve; only a MANAGER who is the task's
`assignedBy` may delete; on success the document is physically removed
(`task.deleteOne()`, a hard delete). -/
def deleteTask (u : Principal) (taskId : Nat) (store : List Task) : Except ApiErr (List Task) :=
  match store.find? (fun t => t.id == taskId) with
  | none => Except.error ⟨404, "Task not found"⟩
  | some task =>
    if u.role ≠ "MANAGER" ∨ task.assignedBy ≠ u.id then
      Except.error ⟨403, "Only the manager who created this task can delete it"⟩
    else
      Except.ok (store.filter (fun t => t.id != taskId))

/-- `exports.updateTaskStatus` (seed.js lines 363-432): a TEAM_MEMBER may
only touch tasks assigned to them and may not write "Overdue" nor move a
task whose stored status is "Overdue" (403 in both cases); a MANAGER may
only touch tasks they created; a SUPER_ADMIN passes both checks.  A
transition into Done stamps `completedAt` and, when a deadline exists,
`completedBeforeDeadline`; then `task.save()` runs the schema enum
validation on the modified `status` path and the pre-save hook. -/
def updateTaskStatus (u : Principal) (status : String) (now : Int) (task : Task) :
    Except ApiErr Task :=
  if u.role = "TEAM_MEMBER" ∧ task.assignedTo ≠ u.id then
    Except.error ⟨403, "You can only update tasks assigned to you"⟩
  else if u.role = "TEAM_MEMBER" ∧ (status = "Overdue" ∨ task.status = "Overdue") then
    Except.error ⟨403, "Cannot manually change overdue status"⟩
  else if u.role = "MANAGER" ∧ task.assignedBy ≠ u.id then
    Except.error ⟨403, "You can only update tasks you created"⟩
  else if statusEnum.contains status then
    Except.ok (saveStatusHook task.status now
      (if status = "Done" ∧ task.status ≠ "Done" then
        { task with
          status := status,
          completedAt := some now,
          completedBeforeDeadline :=
            match task.deadline with
            | some d => some (decide (now ≤ d))
            | none => task.completedBeforeDeadline }
      else { task with status := status }))
  else Except.error ⟨500, "Task validation failed"⟩

/-- One `findByIdAndUpdate(taskUpdate.id, { status: taskUpdate.status })`
of the bulk path: sets the status of every stored task with that id and is
a no-op for an unresolved id (`findByIdAndUpdate` makes no pre-save hook
run and, without `runValidators`, no enum check). -/
def applyOrderUpdate (store : List Task) (upd : Nat × String) : List Task :=
  store.map (fun t => if t.id = upd.1 then { t with status := upd.2 } else t)

/-- `exports.updateTaskOrder` (seed.js lines 477-502): applies every
`{id, status}` pair of the request body to the store and reports success.
The principal is never consulted — no role, ownership or status-value
check exists on this path. -/
def updateTaskOrder (u : Principal) (updates : List (Nat × String)) (store : List Task) :
    Except ApiErr (List Task) :=
  Except.ok (updates.foldl applyOrderUpdate store)

/-- `exports.submitTaskSolution` (seed.js lines 507-572): requires a
non-empty (after trim) code or a non-empty file list, and that the caller is
the task's `assignedTo`.  When a previous submission exists it is pushed
onto `revisionHistory` (with the current `submissionStatus` and
`managerFeedback`) before the new submission overwrites the current fields
and `submissionStatus` becomes "Pending Review".  No check on the current
`submissionStatus` is made. -/
def submitTaskSolution (u : Principal) (code : String) (files : List SubFile) (now : Int)
    (task : Task) : Except ApiErr Task :=
  if strTrim code = "" ∧ files = [] then
    Except.error ⟨400, "Please provide code or files before submitting"⟩
  else if task.assignedTo ≠ u.id then
    Except.error ⟨403, "Only the assigned team member can submit this task"⟩
  else
    Except.ok (saveStatusHook task.status now
      { (if task.submittedCode ≠ "" ∨ task.submittedFiles ≠ [] then
          { task with revisionHistory := task.revisionHistory ++
              [⟨task.submittedCode, task.submittedFiles, task.submissionDate,
                task.submissionStatus, task.managerFeedback, now⟩] }
        else task) with
        submittedCode := code,
        submittedFiles := files,
        submissionStatus := "Pending Review",
        submissionDate := some now,
        managerFeedback := "" })

/-- `exports.acceptSubmission` (seed.js lines 614-665): only the MANAGER who
created the task, and only when `submissionStatus` is "Pending Review"
(else 400).  Sets Accepted/Done, stamps `completedAt` and
`completedBeforeDeadline` (`null` without a deadline), and stores the
feedback or the default "Accepted".  `feedback := ""` encodes an absent
feedback body field. -/
def acceptSubmission (u : Principal) (feedback : String) (now : Int) (task : Task) :
    Except ApiErr Task :=
  if ¬(u.role = "MANAGER" ∧ task.assignedBy = u.id) then
    Except.error ⟨403, "Only the manager who created this task can accept it"⟩
  else if task.submissionStatus ≠ "Pending Review" then
    Except.error ⟨400, "This task does not have a pending submission"⟩
  else
    Except.ok (saveStatusHook task.status now
      { task with
        submissionStatus := "Accepted",
        status := "Done",
        completedAt := some now,
        completedBeforeDeadline :=
          match task.deadline with
          | some d => some (decide (now ≤ d))
          | none => none,
        managerFeedback := if feedback = "" then "Accepted" else feedback })

/-- `exports.rejectSubmission` (seed.js lines 670-738): empty feedback fails
with 400 before the task is even loaded; then only the MANAGER who created
the task, and only on a "Pending Review" submission.  Pushes the current
submission onto `revisionHistory` with status "Rejected" and the feedback,
then sets Rejected / In-Progress and stores the feedback. -/
def rejectSubmission (u : Principal) (feedback : String) (now : Int) (task : Task) :
    Except ApiErr Task :=
  if feedback = "" then
    Except.error ⟨400, "Please provide feedback for rejection"⟩
  else if ¬(u.role = "MANAGER" ∧ task.assignedBy = u.id) then
    Except.error ⟨403, "Only the manager who created this task can reject it"⟩
  else if task.submissionStatus ≠ "Pending Review" then
    Except.error ⟨400, "This task does not have a pending submission"⟩
  else
    Except.ok (saveStatusHook task.status now
      { task with
        revisionHistory := task.revisionHistory ++
          [⟨task.submittedCode, task.submittedFiles, task.submissionDate,
            "Rejected", feedback, now⟩],
        submissionStatus := "Rejected",
        status := "In-Progress",
        managerFeedback := feedback })

end V1

namespace V2

/-- `exports.createTask` of the AI-priority controller (seed.js lines
863-923): MANAGER only; `assignedTo` mandatory (`!req.body.assignedTo` is a
400); `title` non-empty (the route's `body('title').notEmpty()` validator);
the score is computed on the request body by `calculateAIPriority` and the
priority tier is derived from the score (≥75 High, ≥40 Medium, else Low)
before `Task.create` persists (which validates the category enum and
`estimatedTime ≥ 0`). -/
def createTask (u : Principal) (input : TaskInput) (freshId : Nat) (now : Int) :
    Except ApiErr Task :=
  if u.role ≠ "MANAGER" then
    Except.error ⟨403, "Only managers can create tasks"⟩
  else if input.title = "" then
    Except.error ⟨400, "Title is required"⟩
  else
    match input.assignedTo with
    | none => Except.error ⟨400, "Please assign this task to a team member"⟩
    | some assignee =>
      if ¬(categoryEnum.contains input.category) then
        Except.error ⟨500, "Task validation failed"⟩
      else if (match input.estimatedTime with | some t => decide (t < 0) | none => false) then
        Except.error ⟨500, "Task validation failed"⟩
      else
        let aiPriorityScore := calculateAIPriority input.toScoreData now
        Except.ok
          { id := freshId,
            title := input.title,
            description := input.description,
            status := "To-Do",
            priority :=
              if aiPriorityScore ≥ 75 then "High"
              else if aiPriorityScore ≥ 40 then "Medium"
              else "Low",
            aiPriorityScore := aiPriorityScore,
            deadline := input.deadline,
            category := input.category,
            tags := input.tags,
            estimatedTime := input.estimatedTime,
            user := u.id,
            assignedBy := u.id,
            assignedTo := assignee }

/-- The conditional mutation of `req.body` before the persist of
`V2.updateTask`: when the body carries a truthy `deadline`, `category` or
`estimatedTime`, the score recomputed on the merged view
(`{...task.toObject(), ...req.body}`) is written into the body — the
priority tier is NOT re-derived here. -/
def recomputePatch (p : Patch) (task : Task) (now : Int) : Patch :=
  if recomputeCond p then
    { p with aiPriorityScore := some (calculateAIPriority (applyPatch p task).toScoreData now) }
  else p

/-- `exports.updateTask` of the AI-priority controller (seed.js lines
928-971): only the MANAGER who created the task; the request body is
conditionally extended with a recomputed score (`recomputePatch`), then
`findByIdAndUpdate` persists it with `runValidators: true`. -/
def updateTask (u : Principal) (p : Patch) (now : Int) (task : Task) : Except ApiErr Task :=
  if ¬(u.role = "MANAGER" ∧ task.assignedBy = u.id) then
    Except.error ⟨403, "Only the manager who created this task can update it"⟩
  else if patchValid (recomputePatch p task now) then
    Except.ok (applyPatch (recomputePatch p task now) task)
  else Except.error ⟨500, "Task validation failed"⟩

/-- `exports.recalculatePriority` (seed.js lines 1086-1131): only the task's
`user` (creator); recomputes the score from the stored task and overwrites
both `aiPriorityScore` and the `priority` tier (≥75 High, ≥40 Medium, else
Low). -/
def recalculatePriority (u : Principal) (now : Int) (task : Task) : Except ApiErr Task :=
  if task.user ≠ u.id then
    Except.error ⟨403, "Not authorized to update this task"⟩
  else
    let aiPriorityScore := calculateAIPriority task.toScoreData now
    Except.ok
      { task with
        aiPriorityScore := aiPriorityScore,
        priority :=
          if aiPriorityScore ≥ 75 then "High"
          else if aiPriorityScore ≥ 40 then "Medium"
          else "Low" }

end V2

/-- Per-task effect of the whole bulk update list on one stored task (the
composition of all `findByIdAndUpdate` calls that hit this task). -/
def applyUpdatesToTask (t : Task) (updates : List (Nat × String)) : Task :=
  updates.foldl (fun t' upd => if t'.id = upd.1 then { t' with status := upd.2 } else t') t

/-- Sample stored task: created by manager 2 for team member 3, untouched
otherwise (schema defaults: status "To-Do", no submission, empty history). -/
def sampleTask : Task :=
  { id := 10, title := "T", user := 2, assignedBy := 2, assignedTo := 3 }

/-- Sample task with an accepted submission on file. -/
def acceptedTask : Task :=
  { id := 30, title := "T", user := 2, assignedBy := 2, assignedTo := 3,
    submittedCode := "v1", submissionStatus := "Accepted",
    submissionDate := some 100, managerFeedback := "great" }

/-- Sample task with a submission awaiting review. -/
def pendingTask : Task :=
  { id := 40, title := "T", user := 2, assignedBy := 2, assignedTo := 3,
    submittedCode := "v1", submissionStatus := "Pending Review",
    submissionDate := some 100 }

/-- Sample task for the update-path claims: stored score 50, tier Low. -/
def c6task : Task :=
  { id := 20, title := "T", user := 2, assignedBy := 2, assignedTo := 3,
    priority := "Low", aiPriorityScore := 50 }

/-- Patch that only changes the tags (adds an urgent tag). -/
def tagsPatch : Patch := { tags := some ["urgent"] }

/-- Patch that only changes the category (to Urgent). -/
def categoryPatch : Patch := { category := some "Urgent" }

/-- Sample creation body: Work category, quick task, nothing else set. -/
def sampleInput : TaskInput :=
  { title := "T", assignedTo := some 3, category := "Work" }

/-- Sample task whose recomputed score clamps at 100. -/
def hotTask : Task :=
  { id := 50, title := "T", user := 7, assignedBy := 7, assignedTo := 8,
    category := "Urgent", tags := ["urgent"], priority := "High",
    estimatedTime := some 20 }

/-- The round-trip of claim C3 on `sampleTask`, chained through `Except`:
submit by member 3, reject with feedback "fix X" by manager 2, resubmit,
accept. -/
def roundTripSample : Except ApiErr Task :=
  (V1.submitTaskSolution ⟨3, "TEAM_MEMBER"⟩ "a" [] 1 sampleTask).bind (fun t1 =>
  (V1.rejectSubmission ⟨2, "MANAGER"⟩ "fix X" 2 t1).bind (fun t2 =>
  (V1.submitTaskSolution ⟨3, "TEAM_MEMBER"⟩ "b" [] 3 t2).bind (fun t3 =>
  V1.acceptSubmission ⟨2, "MANAGER"⟩ "" 4 t3)))

/-- A save with an unmodified status leaves the document untouched by the
pre-save hook. -/
theorem saveStatusHook_eq_self (oldStatus : String) (now : Int) (t : Task)
    (h : t.status = oldStatus) : saveStatusHook oldStatus now t = t := by
  unfold saveStatusHook
  rw [if_neg (not_not_intro h)]

/-- The pre-save hook only ever rewrites `completedAt`. -/
theorem saveStatusHook_shape (oldStatus : String) (now : Int) (t : Task) :
    ∃ c, saveStatusHook oldStatus now t = { t with completedAt := c } := by
  unfold saveStatusHook
  split_ifs with h1 h2 h3
  · exact ⟨some now, rfl⟩
  · exact ⟨none, rfl⟩
  · exact ⟨t.completedAt, rfl⟩
  · exact ⟨t.completedAt, rfl⟩

/-- Unfolding `deadlineScore` on a present deadline. -/
theorem deadlineScore_some (dl now : Int) :
    deadlineScore (some dl) now =
      (if ceilDiv (dl - now) msPerDay < 0 then 40
       else if ceilDiv (dl - now) msPerDay ≤ 1 then 35
       else if ceilDiv (dl - now) msPerDay ≤ 3 then 25
       else if ceilDiv (dl - now) msPerDay ≤ 7 then 15
       else if ceilDiv (dl - now) msPerDay ≤ 14 then 5
       else 0) := rfl

/-- C2, counterexample.  The claim asserts that `deadline = now − 1s` scores
+40 (overdue band) and `deadline = now + 25h` scores +15 (7-day band).  On
the code, `Math.ceil((deadline − now) / 86400000)` rounds −1s up to 0 days
(the due-today band, +35) and 25h up to 2 days (the 3-day band, +25), so
both asserted contributions are wrong. -/
theorem c2_deadline_bands_counterexample :
    deadlineScore (some ((0 : Int) - 1000)) 0 = 35 ∧
    deadlineScore (some ((0 : Int) - 1000)) 0 ≠ 40 ∧
    deadlineScore (some ((0 : Int) + 90000000)) 0 = 25 ∧
    deadlineScore (some ((0 : Int) + 90000000)) 0 ≠ 15 :=
  ⟨by decide, by decide, by decide, by decide⟩

/-- C2, amended.  At the band boundaries the deadline-urgency contribution
of the rule-based scorer is: a deadline 1 second in the past contributes +35
(daysUntil rounds up to 0, the due-today band); a deadline 25 hours ahead
contributes +25 (daysUntil = 2, inside the inclusive 3-day band); an input
with daysUntil exactly 3 contributes +25.  On an otherwise-neutral task the
whole scores are 50+35 = 85 and 50+25 = 75 respectively. -/
theorem c2_deadline_bands_amended : ∀ (now dl : Int),
    deadlineScore (some (now - 1000)) now = 35 ∧
    deadlineScore (some (now + 90000000)) now = 25 ∧
    (ceilDiv (dl - now) msPerDay = 3 → deadlineScore (some dl) now = 25) ∧
    calculateRuleBasedPriority ⟨some (now - 1000), "Other", none, [], ""⟩ now = 85 ∧
    calculateRuleBasedPriority ⟨some (now + 90000000), "Other", none, [], ""⟩ now = 75 := by
  intro now dl
  have e1 : now - 1000 - now = (-1000 : Int) := by ring
  have e2 : now + 90000000 - now = (90000000 : Int) := by ring
  have d1 : deadlineScore (some (now - 1000)) now = 35 := by
    rw [deadlineScore_some, e1]; decide
  have d2 : deadlineScore (some (now + 90000000)) now = 25 := by
    rw [deadlineScore_some, e2]; decide
  refine ⟨d1, d2, ?_, ?_, ?_⟩
  · intro h3
    rw [deadlineScore_some, h3]; decide
  · show max 0 (min 100 (50 + deadlineScore (some (now - 1000)) now + categoryScore "Other"
      + estimatedTimeScore none + tagScore [] + priorityBoost "")) = 85
    rw [d1]; decide
  · show max 0 (min 100 (50 + deadlineScore (some (now + 90000000)) now + categoryScore "Other"
      + estimatedTimeScore none + tagScore [] + priorityBoost "")) = 75
    rw [d2]; decide

/-- C2, amended, witness at daysUntil = 3 (deadline three days after
now = 0). -/
theorem c2_deadline_bands_amended_witness :
    ceilDiv ((259200000 : Int) - 0) msPerDay = 3 ∧
    deadlineScore (some (259200000 : Int)) 0 = 25 :=
  ⟨by decide, (c2_deadline_bands_amended 0 259200000).2.2.1 (by decide)⟩

/-- C1, counterexample.  The claim asserts every principal's explicit
"Overdue" write through `updateTaskStatus` is rejected; on the code the
Overdue guard only exists inside the TEAM_MEMBER branch, so a SUPER_ADMIN
write of "Overdue" succeeds and the stored status becomes "Overdue". -/
theorem c1_overdue_write_counterexample :
    (V1.updateTaskStatus ⟨1, "SUPER_ADMIN"⟩ "Overdue" 0 sampleTask).toOption.map Task.status =
      some "Overdue" := by decide

/-- C1, amended.  Only a TEAM_MEMBER principal (on a task assigned to them)
has the explicit "Overdue" write through `updateTaskStatus` rejected — with
a Forbidden-kind 403 error, not a validation error — leaving the stored
status unchanged (nothing is saved on the error path); a SUPER_ADMIN's
explicit "Overdue" write on the same operation succeeds and persists. -/
theorem c1_overdue_write_amended : ∀ (u a : Principal) (task : Task) (now : Int),
    (u.role = "TEAM_MEMBER" → task.assignedTo = u.id →
      V1.updateTaskStatus u "Overdue" now task =
        Except.error ⟨403, "Cannot manually change overdue status"⟩) ∧
    (a.role = "SUPER_ADMIN" →
      ∃ t', V1.updateTaskStatus a "Overdue" now task = Except.ok t' ∧ t'.status = "Overdue") := by
  intro u a task now
  constructor
  · intro hrole hassign
    unfold V1.updateTaskStatus
    rw [if_neg (fun h => h.2 hassign), if_pos ⟨hrole, Or.inl rfl⟩]
  · intro ha
    unfold V1.updateTaskStatus
    rw [if_neg (fun h => absurd (ha.symm.trans h.1) (by decide)),
        if_neg (fun h => absurd (ha.symm.trans h.1) (by decide)),
        if_neg (fun h => absurd (ha.symm.trans h.1) (by decide)),
        if_pos (by decide), if_neg (fun h => absurd h.1 (by decide))]
    obtain ⟨c, hc⟩ := saveStatusHook_shape task.status now { task with status := "Overdue" }
    rw [hc]
    exact ⟨_, rfl, rfl⟩

/-- C1, amended, witness: team member 3 on their own task. -/
theorem c1_overdue_write_amended_witness :
    V1.updateTaskStatus ⟨3, "TEAM_MEMBER"⟩ "Overdue" 0 sampleTask =
      Except.error ⟨403, "Cannot manually change overdue status"⟩ :=
  (c1_overdue_write_amended ⟨3, "TEAM_MEMBER"⟩ ⟨1, "SUPER_ADMIN"⟩ sampleTask 0).1 rfl rfl

/-- C9, counterexample.  The claim asserts a SUPER_ADMIN may delete any
task; on the code `deleteTask` requires `role === 'MANAGER'`, so the
SUPER_ADMIN gets the 403 error instead. -/
theorem c9_delete_auth_counterexample :
    V1.deleteTask ⟨1, "SUPER_ADMIN"⟩ 10 [sampleTask] =
      Except.error ⟨403, "Only the manager who created this task can delete it"⟩ := rfl

/-- C9, amended.  `deleteTask` succeeds exactly for a MANAGER principal
whose id equals the task's `assignedBy`; every other principal — a
SUPER_ADMIN included — receives the Forbidden error (and, the error path
persisting nothing, the task remains stored); on success the document is
physically removed from the store (hard delete). -/
theorem c9_delete_auth_amended : ∀ (u : Principal) (taskId : Nat) (store : List Task)
    (task : Task),
    store.find? (fun t => t.id == taskId) = some task →
    ((u.role = "MANAGER" ∧ task.assignedBy = u.id) →
      V1.deleteTask u taskId store = Except.ok (store.filter (fun t => t.id != taskId)) ∧
      ∀ t' ∈ store.filter (fun t => t.id != taskId), t'.id ≠ taskId) ∧
    (¬(u.role = "MANAGER" ∧ task.assignedBy = u.id) →
      V1.deleteTask u taskId store =
        Except.error ⟨403, "Only the manager who created this task can delete it"⟩) := by
  intro u taskId store task hfind
  simp only [V1.deleteTask, hfind]
  constructor
  · rintro ⟨h1, h2⟩
    rw [if_neg (by simp [h1, h2])]
    refine ⟨rfl, ?_⟩
    intro t' ht'
    have hmem := List.mem_filter.mp ht'
    simpa using hmem.2
  · intro hno
    rw [if_pos]
    exact (not_and_or.mp hno).imp (fun h => h) (fun h => h)

/-- C9, amended, witness: the owning manager's delete empties the store. -/
theorem c9_delete_auth_amended_witness :
    V1.deleteTask ⟨2, "MANAGER"⟩ 10 [sampleTask] = Except.ok [] :=
  (((c9_delete_auth_amended ⟨2, "MANAGER"⟩ 10 [sampleTask] sampleTask rfl).1
    ⟨rfl, rfl⟩).1).trans rfl

/-- C5, counterexample.  The claim asserts Accepted is a server-enforced
terminal submission state; on the code `submitTaskSolution` never inspects
`submissionStatus`, so a new submit on an accepted task succeeds, pushes the
accepted submission onto the history and resets the status to Pending
Review. -/
theorem c5_accept_terminal_counterexample :
    (V1.submitTaskSolution ⟨3, "TEAM_MEMBER"⟩ "v2" [] 200 acceptedTask).toOption.map
      (fun t => (t.submissionStatus, t.revisionHistory.length)) =
      some ("Pending Review", 1) := rfl

/-- C5, amended.  Accepted is not a terminal state server-side: on a task
with `submissionStatus = Accepted` and a non-empty prior submission, a
subsequent submit by the assignedTo member succeeds, pushes the previous
(accepted) submission — with its "Accepted" status and stored feedback —
onto `revisionHistory`, and resets `submissionStatus` to "Pending Review"
with the new code stored. -/
theorem c5_accept_terminal_amended : ∀ (u : Principal) (task : Task) (code : String)
    (now : Int),
    task.assignedTo = u.id → task.submissionStatus = "Accepted" → task.submittedCode ≠ "" →
    strTrim code ≠ "" →
    V1.submitTaskSolution u code [] now task =
      Except.ok { task with
        revisionHistory := task.revisionHistory ++
          [⟨task.submittedCode, task.submittedFiles, task.submissionDate, "Accepted",
            task.managerFeedback, now⟩],
        submittedCode := code, submittedFiles := [], submissionStatus := "Pending Review",
        submissionDate := some now, managerFeedback := "" } := by
  intro u task code now hassign hacc hcode htrim
  unfold V1.submitTaskSolution
  rw [if_neg (fun h => htrim h.1), if_neg (fun h => h hassign), if_pos (Or.inl hcode), hacc]
  exact congrArg Except.ok (saveStatusHook_eq_self _ _ _ rfl)

/-- C5, amended, witness on `acceptedTask`. -/
theorem c5_accept_terminal_amended_witness :
    V1.submitTaskSolution ⟨3, "TEAM_MEMBER"⟩ "v2" [] 200 acceptedTask =
      Except.ok { acceptedTask with
        revisionHistory := acceptedTask.revisionHistory ++
          [⟨acceptedTask.submittedCode, acceptedTask.submittedFiles,
            acceptedTask.submissionDate, "Accepted", acceptedTask.managerFeedback, 200⟩],
        submittedCode := "v2", submittedFiles := [], submissionStatus := "Pending Review",
        submissionDate := some 200, managerFeedback := "" } :=
  c5_accept_terminal_amended ⟨3, "TEAM_MEMBER"⟩ acceptedTask "v2" 200 rfl rfl
    (by decide) (by decide)

/-- C8, confirmed.  For every task with a pending submission (indeed for
every task at all), rejecting with empty feedback fails with the 400
validation error — the feedback guard runs before the task is even loaded —
and, nothing being saved on the error path, the task keeps its Pending
Review submission, history, feedback and status. -/
theorem c8_reject_empty_feedback : ∀ (u : Principal) (task : Task) (now : Int),
    task.submissionStatus = "Pending Review" →
    V1.rejectSubmission u "" now task =
      Except.error ⟨400, "Please provide feedback for rejection"⟩ := by
  intro u task now _
  rfl

/-- C8, witness on `pendingTask`. -/
theorem c8_reject_empty_feedback_witness :
    pendingTask.submissionStatus = "Pending Review" ∧
    V1.rejectSubmission ⟨2, "MANAGER"⟩ "" 0 pendingTask =
      Except.error ⟨400, "Please provide feedback for rejection"⟩ :=
  ⟨rfl, c8_reject_empty_feedback ⟨2, "MANAGER"⟩ pendingTask 0 rfl⟩

/-- The derived tier if-chain maps scores to High / Medium / Low at the
claimed boundaries. -/
theorem tier_cases (s : Int) :
    (75 ≤ s → (if s ≥ 75 then "High" else if s ≥ 40 then "Medium" else "Low") = "High") ∧
    (40 ≤ s ∧ s < 75 → (if s ≥ 75 then "High" else if s ≥ 40 then "Medium" else "Low") = "Medium") ∧
    (s < 40 → (if s ≥ 75 then "High" else if s ≥ 40 then "Medium" else "Low") = "Low") := by
  refine ⟨?_, ?_, ?_⟩ <;> intro h <;> split_ifs <;> first | rfl | (exfalso; omega)

/-- C4, confirmed.  Wherever a priority score is computed and stored —
`createTask` and the explicit `recalculatePriority` — the stored priority
tier is derived from the just-computed score (score ≥ 75 High, 40 ≤ score
< 75 Medium, score < 40 Low) and this derived tier overwrites whatever
priority was previously stored or supplied. -/
theorem c4_tier_derivation : ∀ (u v : Principal) (input : TaskInput) (task : Task)
    (freshId : Nat) (now : Int) (t1 t2 : Task),
    V2.createTask u input freshId now = Except.ok t1 →
    V2.recalculatePriority v now task = Except.ok t2 →
    ((75 ≤ t1.aiPriorityScore → t1.priority = "High") ∧
     (40 ≤ t1.aiPriorityScore ∧ t1.aiPriorityScore < 75 → t1.priority = "Medium") ∧
     (t1.aiPriorityScore < 40 → t1.priority = "Low")) ∧
    ((75 ≤ t2.aiPriorityScore → t2.priority = "High") ∧
     (40 ≤ t2.aiPriorityScore ∧ t2.aiPriorityScore < 75 → t2.priority = "Medium") ∧
     (t2.aiPriorityScore < 40 → t2.priority = "Low")) := by
  intro u v input task freshId now t1 t2 h1 h2
  constructor
  · unfold V2.createTask at h1
    split at h1
    · exact absurd h1 (by simp)
    split at h1
    · exact absurd h1 (by simp)
    split at h1
    · exact absurd h1 (by simp)
    split at h1
    · exact absurd h1 (by simp)
    split at h1
    · exact absurd h1 (by simp)
    simp only [Except.ok.injEq] at h1
    subst h1
    exact tier_cases _
  · unfold V2.recalculatePriority at h2
    split at h2
    · exact absurd h2 (by simp)
    simp only [Except.ok.injEq] at h2
    subst h2
    exact tier_cases _

/-- C4, witness: a Work-category creation scores 60 (Medium tier), and
recalculation of `hotTask` clamps at 100 (High tier). -/
theorem c4_tier_derivation_witness :
    ((V2.createTask ⟨7, "MANAGER"⟩ sampleInput 5 0).toOption.getD default).priority = "Medium" ∧
    ((V2.recalculatePriority ⟨7, "X"⟩ 0 hotTask).toOption.getD default).priority = "High" := by
  have h1 : V2.createTask ⟨7, "MANAGER"⟩ sampleInput 5 0 =
      Except.ok ((V2.createTask ⟨7, "MANAGER"⟩ sampleInput 5 0).toOption.getD default) := rfl
  have h2 : V2.recalculatePriority ⟨7, "X"⟩ 0 hotTask =
      Except.ok ((V2.recalculatePriority ⟨7, "X"⟩ 0 hotTask).toOption.getD default) := rfl
  have hm := c4_tier_derivation ⟨7, "MANAGER"⟩ ⟨7, "X"⟩ sampleInput hotTask 5 0 _ _ h1 h2
  exact ⟨hm.1.2.1 (by decide), hm.2.1 (by decide)⟩

/-- C6, counterexample.  The claim asserts that both `aiPriorityScore` and
`priority` are recomputed exactly when deadline, category, estimatedTime or
priority-affecting tags change.  On the code: a tags-only patch (which
would raise the score from 50 to 60) triggers no recomputation at all, and
a category patch recomputes the score (70) but leaves the stored priority
tier ("Low") untouched. -/
theorem c6_recompute_counterexample :
    (V2.updateTask ⟨2, "MANAGER"⟩ tagsPatch 0 c6task).toOption.map Task.aiPriorityScore =
      some 50 ∧
    calculateAIPriority (applyPatch tagsPatch c6task).toScoreData 0 = 60 ∧
    (V2.updateTask ⟨2, "MANAGER"⟩ categoryPatch 0 c6task).toOption.map
      (fun t => (t.aiPriorityScore, t.priority)) = some (70, "Low") :=
  ⟨rfl, rfl, rfl⟩

/-- C6, amended.  On a successful `updateTask`, only `aiPriorityScore` is
recomputed — on the merged view of the stored task and the patch — and
exactly when the patch carries a truthy `deadline`, `category` or
`estimatedTime` field; a patch not meeting that condition (tags changes
included) leaves the stored score untouched, and the priority tier is never
re-derived (it changes only if the patch itself carries a priority). -/
theorem c6_recompute_amended : ∀ (u : Principal) (p : Patch) (now : Int) (task t' : Task),
    V2.updateTask u p now task = Except.ok t' →
    (recomputeCond p = false → p.aiPriorityScore = none →
      t'.aiPriorityScore = task.aiPriorityScore) ∧
    (recomputeCond p = true →
      t'.aiPriorityScore = calculateAIPriority (applyPatch p task).toScoreData now) ∧
    (p.priority = none → t'.priority = task.priority) := by
  intro u p now task t' h
  unfold V2.updateTask at h
  split at h
  · exact absurd h (by simp)
  split at h
  · simp only [Except.ok.injEq] at h
    subst h
    refine ⟨?_, ?_, ?_⟩
    · intro hrc hnone
      simp [V2.recomputePatch, hrc, applyPatch, hnone]
    · intro hrc
      simp [V2.recomputePatch, hrc, applyPatch]
    · intro hpr
      by_cases hrc : recomputeCond p <;> simp [V2.recomputePatch, hrc, applyPatch, hpr]
  · exact absurd h (by simp)

/-- C6, amended, witness: the category patch recomputes the score on the
merged view and leaves the tier as stored. -/
theorem c6_recompute_amended_witness :
    ((V2.updateTask ⟨2, "MANAGER"⟩ categoryPatch 0 c6task).toOption.getD default).aiPriorityScore =
      calculateAIPriority (applyPatch categoryPatch c6task).toScoreData 0 ∧
    ((V2.updateTask ⟨2, "MANAGER"⟩ categoryPatch 0 c6task).toOption.getD default).priority =
      c6task.priority := by
  have h : V2.updateTask ⟨2, "MANAGER"⟩ categoryPatch 0 c6task =
      Except.ok ((V2.updateTask ⟨2, "MANAGER"⟩ categoryPatch 0 c6task).toOption.getD default) :=
    rfl
  have hm := c6_recompute_amended ⟨2, "MANAGER"⟩ categoryPatch 0 c6task _ h
  exact ⟨hm.2.1 (by decide), hm.2.2 rfl⟩

/-- C7, confirmed.  A TEAM_MEMBER on a task with `assignedTo = self` and
`assignedBy ≠ self` gets 403 from the full `updateTask`, while the same
principal's `updateTaskStatus` on the same task succeeds whenever the new
status is one of To-Do / In-Progress / Done and the stored status is not
"Overdue". -/
theorem c7_member_update_vs_status : ∀ (u : Principal) (task : Task) (p : Patch)
    (newStatus : String) (now : Int),
    u.role = "TEAM_MEMBER" → task.assignedTo = u.id → task.assignedBy ≠ u.id →
    (V1.updateTask u p task =
      Except.error ⟨403, "Only the manager who created this task can update it"⟩) ∧
    ((newStatus = "To-Do" ∨ newStatus = "In-Progress" ∨ newStatus = "Done") →
      task.status ≠ "Overdue" →
      ∃ t', V1.updateTaskStatus u newStatus now task = Except.ok t') := by
  intro u task p newStatus now hrole hassign hby
  constructor
  · unfold V1.updateTask
    rw [if_pos]
    constructor
    · rw [hrole]; decide
    · rintro ⟨h1, _⟩
      rw [hrole] at h1
      exact absurd h1 (by decide)
  · intro hmem hover
    have hno : newStatus ≠ "Overdue" := by
      rcases hmem with h | h | h <;> rw [h] <;> decide
    unfold V1.updateTaskStatus
    rw [if_neg (fun h => h.2 hassign),
        if_neg (fun h => h.2.elim hno hover),
        if_neg (fun h => by rw [hrole] at h; exact absurd h.1 (by decide)),
        if_pos (by rcases hmem with h | h | h <;> rw [h] <;> decide)]
    exact ⟨_, rfl⟩

/-- C7, witness: team member 3 on `sampleTask` (assigned to 3, created by
2): full update forbidden, status update to Done succeeds. -/
theorem c7_member_update_vs_status_witness :
    V1.updateTask ⟨3, "TEAM_MEMBER"⟩ {} sampleTask =
      Except.error ⟨403, "Only the manager who created this task can update it"⟩ ∧
    (V1.updateTaskStatus ⟨3, "TEAM_MEMBER"⟩ "Done" 0 sampleTask).toOption.isSome = true := by
  have h := c7_member_update_vs_status ⟨3, "TEAM_MEMBER"⟩ sampleTask {} "Done" 0 rfl rfl
    (by decide)
  refine ⟨h.1, ?_⟩
  obtain ⟨t', ht'⟩ := h.2 (Or.inr (Or.inr rfl)) (by decide)
  rw [ht']
  rfl

/-- The bulk update is the per-task composition of its
`findByIdAndUpdate` calls. -/
theorem foldl_applyOrderUpdate (updates : List (Nat × String)) (store : List Task) :
    updates.foldl V1.applyOrderUpdate store =
      store.map (fun t => applyUpdatesToTask t updates) := by
  induction updates generalizing store with
  | nil => simp [applyUpdatesToTask]
  | cons q us ih =>
    simp only [List.foldl_cons]
    rw [ih]
    simp only [V1.applyOrderUpdate, List.map_map]
    rfl

/-- The bulk update never changes a task's id. -/
theorem applyUpdatesToTask_id_eq : ∀ (updates : List (Nat × String)) (t : Task),
    (applyUpdatesToTask t updates).id = t.id := by
  intro updates
  induction updates with
  | nil => intro t; rfl
  | cons q us ih =>
    intro t
    show (applyUpdatesToTask (if t.id = q.1 then { t with status := q.2 } else t) us).id = t.id
    by_cases h : t.id = q.1 <;> simp [h, ih]

/-- A task referenced by no pair of the bulk update is left unchanged. -/
theorem applyUpdatesToTask_no_match : ∀ (updates : List (Nat × String)) (t : Task),
    (∀ q ∈ updates, q.1 ≠ t.id) → applyUpdatesToTask t updates = t := by
  intro updates
  induction updates with
  | nil => intro t _; rfl
  | cons q us ih =>
    intro t hall
    show applyUpdatesToTask (if t.id = q.1 then { t with status := q.2 } else t) us = t
    rw [if_neg (fun h => hall q (by simp) h.symm)]
    exact ih t (fun r hr => hall r (by simp [hr]))

/-- A task referenced by the bulk update ends with the supplied status
(stated for update lists whose pairs for that id agree). -/
theorem applyUpdatesToTask_status : ∀ (updates : List (Nat × String)) (t : Task) (s : String),
    (∀ q ∈ updates, q.1 = t.id → q.2 = s) → (∃ q ∈ updates, q.1 = t.id) →
    (applyUpdatesToTask t updates).status = s := by
  intro updates
  induction updates with
  | nil =>
    intro t s _ hmem
    simp at hmem
  | cons q us ih =>
    intro t s hall hmem
    show (applyUpdatesToTask (if t.id = q.1 then { t with status := q.2 } else t) us).status = s
    by_cases hq : t.id = q.1
    · rw [if_pos hq]
      by_cases hrest : ∃ r ∈ us, r.1 = t.id
      · refine ih { t with status := q.2 } s ?_ ?_
        · intro r hr hr1
          exact hall r (by simp [hr]) (by simpa using hr1)
        · obtain ⟨r, hr, hr1⟩ := hrest
          exact ⟨r, hr, hr1⟩
      · rw [applyUpdatesToTask_no_match us { t with status := q.2 }
            (fun r hr h => hrest ⟨r, hr, h⟩)]
        show q.2 = s
        exact hall q (by simp) hq.symm
    · rw [if_neg hq]
      refine ih t s (fun r hr hr1 => hall r (by simp [hr]) hr1) ?_
      obtain ⟨r, hr, hr1⟩ := hmem
      rcases List.mem_cons.mp hr with rfl | hr'
      · exact absurd hr1.symm hq
      · exact ⟨r, hr', hr1⟩

/-- C10, confirmed.  For every principal — role, ownership and relation to
the tasks never being consulted — and every list of `{id, status}` pairs,
the bulk `updateTaskOrder` succeeds (it has no Forbidden path at all) and
persists each supplied status value, "Overdue" or any other string
included, onto each referenced task. -/
theorem c10_bulk_no_auth : ∀ (u : Principal) (updates : List (Nat × String))
    (store : List Task),
    V1.updateTaskOrder u updates store =
      Except.ok (store.map (fun t => applyUpdatesToTask t updates)) ∧
    ∀ t ∈ store, ∀ s : String,
      (∀ q ∈ updates, q.1 = t.id → q.2 = s) → (∃ q ∈ updates, q.1 = t.id) →
      (applyUpdatesToTask t updates).id = t.id ∧ (applyUpdatesToTask t updates).status = s := by
  intro u updates store
  refine ⟨?_, ?_⟩
  · unfold V1.updateTaskOrder
    rw [foldl_applyOrderUpdate]
  · intro t _ s hall hmem
    exact ⟨applyUpdatesToTask_id_eq updates t, applyUpdatesToTask_status updates t s hall hmem⟩

/-- Bind on a success value, for chaining the submission round trip. -/
theorem except_bind_ok {ε α β : Type} (a : α) (f : α → Except ε β) :
    (Except.ok a).bind f = f a := rfl

/-- C3, confirmed.  Starting from a task with no prior submission, the
sequence submit (by the assignedTo member) → reject with feedback "fix X"
(by the assignedBy manager) → resubmit → accept leaves exactly two
revision-history entries, final submissionStatus "Accepted", final status
"Done", `completedAt` stamped with the acceptance time, and "fix X" as the
first history entry's feedback. -/
theorem c3_submission_round_trip : ∀ (member manager : Principal) (task : Task)
    (code1 code2 : String) (n1 n2 n3 n4 : Int),
    task.assignedTo = member.id →
    task.assignedBy = manager.id →
    manager.role = "MANAGER" →
    task.submittedCode = "" →
    task.submittedFiles = [] →
    task.revisionHistory = [] →
    strTrim code1 ≠ "" →
    strTrim code2 ≠ "" →
    ∃ t1 t2 t3 t4,
      V1.submitTaskSolution member code1 [] n1 task = Except.ok t1 ∧
      V1.rejectSubmission manager "fix X" n2 t1 = Except.ok t2 ∧
      V1.submitTaskSolution member code2 [] n3 t2 = Except.ok t3 ∧
      V1.acceptSubmission manager "" n4 t3 = Except.ok t4 ∧
      t4.revisionHistory.length = 2 ∧
      t4.submissionStatus = "Accepted" ∧
      t4.status = "Done" ∧
      t4.completedAt = some n4 ∧
      t4.revisionHistory.head?.map Revision.feedback = some "fix X" := by
  intro member manager task code1 code2 n1 n2 n3 n4 hassign hby hrole hcode hfiles hhist hc1 hc2
  have hc1ne : code1 ≠ "" := fun h => hc1 (by rw [h]; rfl)
  have h1 : V1.submitTaskSolution member code1 [] n1 task = Except.ok
      { task with
        submittedCode := code1, submittedFiles := [],
        submissionStatus := "Pending Review", submissionDate := some n1,
        managerFeedback := "" } := by
    unfold V1.submitTaskSolution
    rw [if_neg (fun h => hc1 h.1), if_neg (fun h => h hassign),
        if_neg (fun h => h.elim (fun hc => hc hcode) (fun hf => hf hfiles))]
    exact congrArg Except.ok (saveStatusHook_eq_self _ _ _ rfl)
  obtain ⟨c2, hc2eq⟩ := saveStatusHook_shape task.status n2
    { task with
      submittedCode := code1, submittedFiles := [], submissionDate := some n1,
      revisionHistory := task.revisionHistory ++ [⟨code1, [], some n1, "Rejected", "fix X", n2⟩],
      submissionStatus := "Rejected", status := "In-Progress", managerFeedback := "fix X" }
  have h2 : V1.rejectSubmission manager "fix X" n2
      { task with
        submittedCode := code1, submittedFiles := [],
        submissionStatus := "Pending Review", submissionDate := some n1,
        managerFeedback := "" } = Except.ok
      { task with
        submittedCode := code1, submittedFiles := [], submissionDate := some n1,
        revisionHistory := task.revisionHistory ++
          [⟨code1, [], some n1, "Rejected", "fix X", n2⟩],
        submissionStatus := "Rejected", status := "In-Progress", managerFeedback := "fix X",
        completedAt := c2 } := by
    unfold V1.rejectSubmission
    rw [if_neg (by decide), if_neg (fun h => h ⟨hrole, hby⟩), if_neg (fun h => h rfl)]
    exact congrArg Except.ok hc2eq
  have h3 : V1.submitTaskSolution member code2 [] n3
      { task with
        submittedCode := code1, submittedFiles := [], submissionDate := some n1,
        revisionHistory := task.revisionHistory ++
          [⟨code1, [], some n1, "Rejected", "fix X", n2⟩],
        submissionStatus := "Rejected", status := "In-Progress", managerFeedback := "fix X",
        completedAt := c2 } = Except.ok
      { task with
        submittedCode := code2, submittedFiles := [], submissionDate := some n3,
        revisionHistory := (task.revisionHistory ++
          [⟨code1, [], some n1, "Rejected", "fix X", n2⟩]) ++
          [⟨code1, [], some n1, "Rejected", "fix X", n3⟩],
        submissionStatus := "Pending Review", status := "In-Progress", managerFeedback := "",
        completedAt := c2 } := by
    unfold V1.submitTaskSolution
    rw [if_neg (fun h => hc2 h.1), if_neg (fun h => h hassign), if_pos (Or.inl hc1ne)]
    exact congrArg Except.ok (saveStatusHook_eq_self _ _ _ rfl)
  have h4 : V1.acceptSubmission manager "" n4
      { task with
        submittedCode := code2, submittedFiles := [], submissionDate := some n3,
        revisionHistory := (task.revisionHistory ++
          [⟨code1, [], some n1, "Rejected", "fix X", n2⟩]) ++
          [⟨code1, [], some n1, "Rejected", "fix X", n3⟩],
        submissionStatus := "Pending Review", status := "In-Progress", managerFeedback := "",
        completedAt := c2 } = Except.ok
      { task with
        submittedCode := code2, submittedFiles := [], submissionDate := some n3,
        revisionHistory := (task.revisionHistory ++
          [⟨code1, [], some n1, "Rejected", "fix X", n2⟩]) ++
          [⟨code1, [], some n1, "Rejected", "fix X", n3⟩],
        submissionStatus := "Accepted", status := "Done", completedAt := some n4,
        completedBeforeDeadline :=
          (match task.deadline with
           | some d => some (decide (n4 ≤ d))
           | none => none),
        managerFeedback := "Accepted" } := by
    unfold V1.acceptSubmission
    rw [if_neg (fun h => h ⟨hrole, hby⟩), if_neg (fun h => h rfl)]
    rfl
  refine ⟨_, _, _, _, h1, h2, h3, h4, ?_, rfl, rfl, rfl, ?_⟩
  · show ((task.revisionHistory ++ [Revision.mk code1 [] (some n1) "Rejected" "fix X" n2]) ++
      [Revision.mk code1 [] (some n1) "Rejected" "fix X" n3]).length = 2
    rw [hhist]
    rfl
  · show ((task.revisionHistory ++ [Revision.mk code1 [] (some n1) "Rejected" "fix X" n2]) ++
      [Revision.mk code1 [] (some n1) "Rejected" "fix X" n3]).head?.map Revision.feedback =
      some "fix X"
    rw [hhist]
    rfl

/-- C3, witness: the concrete round trip `roundTripSample` on `sampleTask`
(codes "a" then "b", times 1..4). -/
theorem c3_submission_round_trip_witness :
    roundTripSample.toOption.map
      (fun t => (t.revisionHistory.length, t.submissionStatus, t.status, t.completedAt)) =
      some (2, "Accepted", "Done", some 4) := by
  obtain ⟨t1, t2, t3, t4, h1, h2, h3, h4, hlen, hsub, hstat, hcomp, _⟩ :=
    c3_submission_round_trip ⟨3, "TEAM_MEMBER"⟩ ⟨2, "MANAGER"⟩ sampleTask "a" "b" 1 2 3 4
      rfl rfl rfl rfl rfl rfl (by decide) (by decide)
  have hchain : roundTripSample = Except.ok t4 := by
    unfold roundTripSample
    rw [h1]
    simp only [except_bind_ok]
    rw [h2]
    simp only [except_bind_ok]
    rw [h3]
    simp only [except_bind_ok]
    exact h4
  rw [hchain]
  show some (t4.revisionHistory.length, t4.submissionStatus, t4.status, t4.completedAt) =
    some (2, "Accepted", "Done", some 4)
  rw [hlen, hsub, hstat, hcomp]

/-- C10, witness: an unrelated TEAM_MEMBER sets "Overdue" on `sampleTask`
through the bulk path. -/
theorem c10_bulk_no_auth_witness :
    V1.updateTaskOrder ⟨99, "TEAM_MEMBER"⟩ [(10, "Overdue")] [sampleTask] =
      Except.ok ([sampleTask].map (fun t => applyUpdatesToTask t [(10, "Overdue")])) ∧
    (applyUpdatesToTask sampleTask [(10, "Overdue")]).status = "Overdue" := by
  have h := c10_bulk_no_auth ⟨99, "TEAM_MEMBER"⟩ [(10, "Overdue")] [sampleTask]
  exact ⟨h.1, (h.2 sampleTask (by decide) "Overdue" (by decide)
    ⟨(10, "Overdue"), by decide, by decide⟩).2⟩

end TaskManager
